import Mathlib

/-!
Shallow embedding of the helius-cli webhook workflow.

Sources embedded here:
* `src/src/commands/webhooks.ts` (second revision in the file, the one with
  collection support): the `webhooks create` action, `promptForWebhookData`,
  and the `webhooks delete` action.
* `src/unnamed/part_002` (second revision, `src/api.ts`): the paginated
  `getNftAddressesFromCollection` lookup and `deleteWebhook`.

External effects (network calls, inquirer prompts, `process.exit`) are made
explicit: prompts and network responses are inputs (a "script" / environment
record holding the values the collaborators would produce), and the observable
behaviour is a list of events plus the value the code would compute.
-/

namespace HeliusCli

/-- Model of JavaScript `String.prototype.trim`: drop whitespace from both
ends of the character sequence. -/
def jsTrim (s : String) : String :=
  String.mk (((s.data.dropWhile Char.isWhitespace).reverse.dropWhile
    Char.isWhitespace).reverse)

/-- Model of JavaScript `String.prototype.toUpperCase` (ASCII fragment, which
is all the CLI compares against). -/
def jsToUpper (s : String) : String :=
  String.mk (s.data.map Char.toUpper)

/-- Helper for `jsSplitComma`: walk the characters, cutting at each comma.
`acc` holds the (reversed) characters of the current field. -/
def splitCommaAux : List Char → List Char → List String
  | [], acc => [String.mk acc.reverse]
  | c :: cs, acc =>
    if c = ',' then String.mk acc.reverse :: splitCommaAux cs []
    else splitCommaAux cs (c :: acc)

/-- Model of JavaScript `s.split(",")`: split on every comma, keeping empty
fields; the empty string yields `[""]`. -/
def jsSplitComma (s : String) : List String :=
  splitCommaAux s.data []

/-- `TRANSACTION_TYPES` from `src/src/commands/webhooks.ts` (second revision). -/
def TRANSACTION_TYPES : List String :=
  ["ANY", "NFT_SALE", "NFT_LISTING", "NFT_CANCEL_LISTING", "NFT_MINT",
   "NFT_AUCTION_CREATED", "NFT_BID", "NFT_AUCTION_COMPLETE", "SWAP",
   "SWAP_SOL", "SWAP_TOKEN", "TOKEN_MINT", "TOKEN_BURN", "TRANSFER",
   "SOL_TRANSFER", "STAKE", "STAKE_DELEGATION", "UNSTAKE", "VOTE", "UNKNOWN"]

/-- `WEBHOOK_TYPES` from `src/src/commands/webhooks.ts`. -/
def WEBHOOK_TYPES : List String :=
  ["raw", "rawDevnet", "enhanced", "enhancedDevnet", "discord", "discordDevnet"]

/-- `TXN_STATUS_OPTIONS` from `src/src/commands/webhooks.ts`. -/
def TXN_STATUS_OPTIONS : List String := ["all", "success", "failed"]

/-- The extra menu entry offered by the interactive status prompt. -/
def skipStatusChoice : String := "Skip (don\u0027t filter by status)"

/-- JavaScript truthiness of an optional string option (`undefined` and the
empty string are falsy, every other string is truthy). -/
def truthy : Option String → Bool
  | none => false
  | some s => s ≠ ""

/-- The webhook creation payload (`Omit<Webhook, "webhookID">`). The second
revision of the code writes `txnStatus` as a plain optional string in both
creation paths, so it is a single `Option String` here. -/
structure Draft where
  webhookURL : String
  webhookType : String
  transactionTypes : List String
  accountAddresses : List String
  authHeader : Option String
  txnStatus : Option String
deriving DecidableEq

/-- Observable external events of the creation workflow, in program order. -/
inductive Event where
  | fetchCollection (collectionAddress : String)
  | confirmCollectionPrompt (count : Nat)
  | repromptAddresses
  | errorExit (msg : String)
  | createWebhook (draft : Draft)
deriving DecidableEq

/-- Outcome of one `getNftAddressesFromCollection` call as seen by a caller:
either the resolved address list or a thrown error message. -/
inductive FetchOutcome where
  | ok (addresses : List String)
  | failure (message : String)
deriving DecidableEq

/-- One item returned by `getAssetsByGroup`; the code reads `item.id`. -/
structure Asset where
  id : String
deriving DecidableEq

/-- Page-by-page model of the `getNftAddressesFromCollection` loop in
`src/unnamed/part_002`.  The argument lists the successive responses the
server gives to page 1, 2, ...; `none` stands for a missing `result` (or
missing `items`).  Each constructor case of the recursion corresponds to one
request; the result is the accumulated address list together with the list of
page numbers actually requested. -/
def fetchCollectionPages (page : Nat) :
    List (Option (List Asset)) → List String × List Nat
  | [] => ([], [page])
  | resp :: rest =>
    match resp with
    | none => ([], [page])
    | some items =>
      if items.length = 0 then ([], [page])
      else
        let addresses := items.map Asset.id
        if items.length < 1000 then (addresses, [page])
        else
          let next := fetchCollectionPages (page + 1) rest
          (addresses ++ next.1, page :: next.2)

/-- `getNftAddressesFromCollection`: pagination starts at page 1. -/
def getNftAddressesFromCollection (server : List (Option (List Asset))) :
    List String × List Nat :=
  fetchCollectionPages 1 server

/-- Script of one interactive `promptForWebhookData` run: the answers the
user eventually submits on each prompt (inquirer blocks until an answer
passes the prompt validator, so each field is the first accepted answer) plus
the outcome of the in-prompt collection lookup. -/
structure IScript where
  webhookURL : String
  webhookType : String
  authHeader : String
  txnStatus : String
  transactionTypes : List String
  useCollection : Bool
  collectionAddress : String
  collectionFetch : FetchOutcome
  confirmCollection : Bool
  manualAddresses : String
  repromptAnswer : String
deriving DecidableEq

/-- Validator of the additional-addresses prompt in `promptForWebhookData`:
accept anything when addresses are not required, otherwise require a
non-blank input. -/
def addressInputValidate (addressRequired : Bool) (input : String) : Bool :=
  if !addressRequired then true else jsTrim input ≠ ""

/-- Filter of the additional-addresses prompt: a falsy (empty) input becomes
the empty list, anything else is split on commas with each token trimmed. -/
def addressInputFilter (input : String) : List String :=
  if input = "" then [] else (jsSplitComma input).map jsTrim

/-- Validator of the final re-prompt for addresses: require non-blank input. -/
def repromptValidate (input : String) : Bool := jsTrim input ≠ ""

/-- Filter of the final re-prompt: split on commas and trim each token. -/
def repromptFilter (input : String) : List String :=
  (jsSplitComma input).map jsTrim

/-- Whether the interactive flow asks the collection question at all: the
`useCollection` answer is only collected when no addresses were prefilled. -/
def interactiveUseCollection (prefilledAddresses : List String)
    (s : IScript) : Bool :=
  if prefilledAddresses.length = 0 then s.useCollection else false

/-- The collection address entered interactively; it stays `""` unless the
collection question was asked and answered with yes. -/
def interactiveCollectionAddress (prefilledAddresses : List String)
    (s : IScript) : String :=
  if prefilledAddresses.length = 0 ∧ s.useCollection then s.collectionAddress
  else ""

/-- The in-prompt collection block of `promptForWebhookData`: fetch the
collection, show the confirmation prompt when it is non-empty, and append the
addresses only on a confirmed yes.  A fetch failure is caught and the flow
continues.  Returns (events, accumulated addresses, collectionAddressesAdded). -/
def interactiveCollectionStep (prefilledAddresses : List String)
    (s : IScript) : List Event × List String × Bool :=
  let useCollection := interactiveUseCollection prefilledAddresses s
  let collectionAddress := interactiveCollectionAddress prefilledAddresses s
  if useCollection ∧ collectionAddress ≠ "" then
    match s.collectionFetch with
    | .failure _ =>
      ([Event.fetchCollection collectionAddress], prefilledAddresses, false)
    | .ok nftAddresses =>
      if nftAddresses.length = 0 then
        ([Event.fetchCollection collectionAddress], prefilledAddresses, false)
      else if s.confirmCollection then
        ([Event.fetchCollection collectionAddress,
          Event.confirmCollectionPrompt nftAddresses.length],
         prefilledAddresses ++ nftAddresses, true)
      else
        ([Event.fetchCollection collectionAddress,
          Event.confirmCollectionPrompt nftAddresses.length],
         prefilledAddresses, false)
  else ([], prefilledAddresses, false)

/-- The addresses the interactive collection stage contributes to the final
sequence (empty unless the question was asked, the fetch succeeded with a
non-empty list and the user confirmed). -/
def collectionContribution (prefilledAddresses : List String)
    (s : IScript) : List String :=
  if interactiveUseCollection prefilledAddresses s ∧
      interactiveCollectionAddress prefilledAddresses s ≠ "" then
    match s.collectionFetch with
    | .failure _ => []
    | .ok nftAddresses =>
      if nftAddresses.length = 0 then []
      else if s.confirmCollection then nftAddresses else []
  else []

/-- The local `txnStatus` computed (and never used) at the end of
`promptForWebhookData` in the second revision: the skip choice would map to
an absent value, any other choice to a one-element list. -/
def computedTxnStatus (s : IScript) : Option (List String) :=
  if s.txnStatus = skipStatusChoice then none else some [s.txnStatus]

/-- `promptForWebhookData` (second revision): collect the basic answers, run
the optional collection stage, append the additional addresses, re-prompt
when the accumulated list is still empty, and build the draft.  Note the
returned `txnStatus` is the raw prompt answer (`basicAnswers.txnStatus`), not
`computedTxnStatus`. -/
def promptForWebhookData (prefilledAddresses : List String)
    (s : IScript) : Draft × List Event :=
  let step := interactiveCollectionStep prefilledAddresses s
  let accountAddresses1 := step.2.1
  let manualTokens := addressInputFilter s.manualAddresses
  let accountAddresses2 :=
    if manualTokens.length > 0 then accountAddresses1 ++ manualTokens
    else accountAddresses1
  let needReprompt := accountAddresses2.length = 0
  let accountAddresses3 :=
    if needReprompt then repromptFilter s.repromptAnswer
    else accountAddresses2
  let events :=
    step.1 ++ (if needReprompt then [Event.repromptAddresses] else [])
  ({ webhookURL := s.webhookURL
     webhookType := s.webhookType
     authHeader := if s.authHeader = "" then none else some s.authHeader
     txnStatus := some s.txnStatus
     transactionTypes := s.transactionTypes
     accountAddresses := accountAddresses3 }, events)

/-- The options of `webhooks create` (commander fills absent flags with
`undefined`). -/
structure CreateOptions where
  url : Option String
  type : Option String
  authHeader : Option String
  status : Option String
  types : Option String
  addresses : Option String
  collection : Option String
  interactive : Bool
deriving DecidableEq

/-- Environment of one `webhooks create` run: the outcome of the action-level
collection fetch, the action-level confirmation answer, and the interactive
script (used only with `--interactive`). -/
structure CreateEnv where
  collectionFetch : FetchOutcome
  confirmCollection : Bool
  script : IScript
deriving DecidableEq

def urlRequiredMsg : String :=
  "Error: Webhook URL is required for non-interactive mode"

def typeRequiredMsg : String :=
  "Error: Webhook type is required for non-interactive mode"

def typesRequiredMsg : String :=
  "Error: Transaction types are required for non-interactive mode"

def addressesRequiredMsg : String :=
  "Error: Account addresses are required for non-interactive mode"

def invalidTxnTypeMsg (t : String) : String :=
  "Error: Invalid transaction type: " ++ t

def invalidWebhookTypeMsg (t : String) : String :=
  "Error: Invalid webhook type: " ++ t

def invalidStatusMsg (s : String) : String :=
  "Error: Invalid transaction status: " ++ s

/-- `options.types.split(",").map(t => t.trim().toUpperCase())`. -/
def parseTransactionTypes (types : String) : List String :=
  (jsSplitComma types).map (fun t => jsToUpper (jsTrim t))

/-- `options.addresses.split(",").map(a => a.trim())`. -/
def parseAddresses (addresses : String) : List String :=
  (jsSplitComma addresses).map jsTrim

/-- The collection block at the top of the `webhooks create` action: runs
before either creation mode whenever `--collection` is truthy; a fetch
failure is caught and the action continues with no addresses.  Returns
(events, accountAddresses accumulated so far). -/
def processCollection (opts : CreateOptions) (env : CreateEnv) :
    List Event × List String :=
  match opts.collection with
  | none => ([], [])
  | some c =>
    if c = "" then ([], [])
    else
      match env.collectionFetch with
      | .failure _ => ([Event.fetchCollection c], [])
      | .ok nftAddresses =>
        if nftAddresses.length = 0 then ([Event.fetchCollection c], [])
        else if env.confirmCollection then
          ([Event.fetchCollection c,
            Event.confirmCollectionPrompt nftAddresses.length], nftAddresses)
        else
          ([Event.fetchCollection c,
            Event.confirmCollectionPrompt nftAddresses.length], [])

/-- The address-merging step of the non-interactive branch: command-line
addresses alone when nothing was collected, collection addresses first and
command-line additions after them when both are present. -/
def mergedAddresses (opts : CreateOptions) (collected : List String) :
    List String :=
  if collected.length = 0 then parseAddresses (opts.addresses.getD "")
  else if truthy opts.addresses then
    collected ++ parseAddresses (opts.addresses.getD "")
  else collected

/-- The draft the non-interactive branch submits when every validation
passes. -/
def nonInteractiveDraft (opts : CreateOptions) (collected : List String) :
    Draft :=
  { webhookURL := opts.url.getD ""
    webhookType := opts.type.getD ""
    transactionTypes := parseTransactionTypes (opts.types.getD "")
    accountAddresses := mergedAddresses opts collected
    authHeader := opts.authHeader
    txnStatus := if truthy opts.status then opts.status else none }

/-- The non-interactive branch of the `webhooks create` action after the
collection block: presence checks for url, type and types, transaction-type
validation (first invalid token exits), the address requirement, webhook-type
and status validation, then the single `createWebhook` call. -/
def nonInteractiveTail (opts : CreateOptions) (collected : List String) :
    List Event :=
  if truthy opts.url = false then [Event.errorExit urlRequiredMsg]
  else if truthy opts.type = false then [Event.errorExit typeRequiredMsg]
  else if truthy opts.types = false then [Event.errorExit typesRequiredMsg]
  else
    match (parseTransactionTypes (opts.types.getD "")).find?
        (fun t => !(decide (t ∈ TRANSACTION_TYPES))) with
    | some t => [Event.errorExit (invalidTxnTypeMsg t)]
    | none =>
      if collected.length = 0 ∧ truthy opts.addresses = false then
        [Event.errorExit addressesRequiredMsg]
      else if (opts.type.getD "") ∉ WEBHOOK_TYPES then
        [Event.errorExit (invalidWebhookTypeMsg (opts.type.getD ""))]
      else if truthy opts.status = true ∧
          (opts.status.getD "") ∉ TXN_STATUS_OPTIONS then
        [Event.errorExit (invalidStatusMsg (opts.status.getD ""))]
      else [Event.createWebhook (nonInteractiveDraft opts collected)]

/-- The full `webhooks create` action: collection block first, then either
the interactive prompt flow or the non-interactive validations, ending (when
nothing exited) in exactly one `createWebhook` call. -/
def createAction (opts : CreateOptions) (env : CreateEnv) : List Event :=
  let pre := processCollection opts env
  if opts.interactive then
    let result := promptForWebhookData pre.2 env.script
    pre.1 ++ result.2 ++ [Event.createWebhook result.1]
  else
    pre.1 ++ nonInteractiveTail opts pre.2

/-- Outcome of one `deleteWebhook` API call: the `success` field of the
response, or a thrown error message. -/
inductive DeleteApiOutcome where
  | ok (success : Bool)
  | failure (message : String)
deriving DecidableEq

/-- What the `webhooks delete` action shows the user. -/
inductive DeleteOutcome where
  | cancelled
  | reportedSuccess (msg : String)
  | reportedFailure (msg : String)
  | errorExit (msg : String)
deriving DecidableEq

/-- Environment of one `webhooks delete` run. -/
structure DeleteEnv where
  confirmAnswer : Bool
  deleteResult : DeleteApiOutcome
deriving DecidableEq

/-- Spinner message on `result.success === false`. -/
def failedDeleteMsg (webhookID : String) : String :=
  "Failed to delete webhook " ++ webhookID

/-- Message printed by the delete catch handler before `process.exit(1)`. -/
def deleteErrorMsg (message : String) : String :=
  "Error deleting webhook: " ++ message

/-- The `webhooks delete` action: confirmation gate (skipped with `--force`),
one `deleteWebhook` call, then a success or failure spinner message; only a
thrown error reaches the catch handler and exits with code 1. -/
def deleteAction (webhookID : String) (force : Bool) (env : DeleteEnv) :
    DeleteOutcome :=
  if !force ∧ !env.confirmAnswer then DeleteOutcome.cancelled
  else
    match env.deleteResult with
    | .ok true =>
      DeleteOutcome.reportedSuccess ("Successfully deleted webhook " ++ webhookID)
    | .ok false => DeleteOutcome.reportedFailure (failedDeleteMsg webhookID)
    | .failure e => DeleteOutcome.errorExit (deleteErrorMsg e)

/-- A baseline interactive script used to build the concrete runs below. -/
def baseScript : IScript :=
  { webhookURL := "https://example.com/hook"
    webhookType := "raw"
    authHeader := ""
    txnStatus := "all"
    transactionTypes := ["NFT_SALE"]
    useCollection := false
    collectionAddress := ""
    collectionFetch := .ok []
    confirmCollection := false
    manualAddresses := "addr1"
    repromptAnswer := "addr1" }

/-- Interactive run whose status answer is the skip choice. -/
def skipScript : IScript := { baseScript with txnStatus := skipStatusChoice }

/-- Non-interactive invocation carrying only a collection address. -/
def collectionOnlyOpts : CreateOptions :=
  { url := none, type := none, authHeader := none, status := none,
    types := none, addresses := none, collection := some "Col111",
    interactive := false }

/-- Environment whose collection fetch returns no assets. -/
def emptyFetchEnv : CreateEnv :=
  { collectionFetch := .ok [], confirmCollection := true,
    script := baseScript }

/-- Interactive run that asks for collection `[B, C]`, confirms it, and then
types addresses `D,E`; used against prefilled `[A]` and against `[]`. -/
def collectScript : IScript :=
  { baseScript with
    useCollection := true
    collectionAddress := "Col111"
    collectionFetch := .ok ["B", "C"]
    confirmCollection := true
    manualAddresses := "D,E" }

/-- Non-interactive invocation with one bogus transaction type. -/
def bogusTypesOpts : CreateOptions :=
  { url := some "https://example.com/hook", type := some "raw",
    authHeader := none, status := none, types := some "NFT_SALE,BOGUS",
    addresses := some "addr1", collection := none, interactive := false }

/-- The same invocation with only valid transaction types. -/
def validTypesOpts : CreateOptions :=
  { bogusTypesOpts with types := some "NFT_SALE,SOL_TRANSFER" }

/-- Non-interactive invocation missing the url option. -/
def missingUrlOpts : CreateOptions :=
  { bogusTypesOpts with url := none }

/-- Interactive run whose first address prompt submits nothing, reaching the
re-prompt. -/
def emptyThenRepromptScript : IScript :=
  { baseScript with manualAddresses := "", repromptAnswer := "addr9" }

/-- Interactive run that fetches a collection but declines to include it. -/
def declineScript : IScript :=
  { collectScript with confirmCollection := false }

/-- Non-interactive environment where the user declines the collection
confirmation. -/
def declineEnv : CreateEnv :=
  { collectionFetch := .ok ["B", "C"], confirmCollection := false,
    script := baseScript }

/-- Interactive run typing only a comma at the address prompt. -/
def commaOnlyScript : IScript := { baseScript with manualAddresses := "," }

/-- Interactive run typing `a,,b` at the address prompt. -/
def mixedEmptyScript : IScript := { baseScript with manualAddresses := "a,,b" }

/-! Helper lemmas shared by the claim theorems. -/

/-- Splitting never produces an empty list of fields. -/
theorem splitCommaAux_ne_nil (l acc : List Char) : splitCommaAux l acc ≠ [] := by
  induction l generalizing acc with
  | nil => simp [splitCommaAux]
  | cons c cs ih =>
    by_cases h : c = ',' <;> simp only [splitCommaAux, h, if_true, if_false,
      ite_true, ite_false, reduceIte] <;> simp_all

/-- `jsSplitComma` never returns the empty list. -/
theorem jsSplitComma_ne_nil (s : String) : jsSplitComma s ≠ [] :=
  splitCommaAux_ne_nil s.data []

/-- The re-prompt filter never returns an empty address list. -/
theorem repromptFilter_ne_nil (s : String) : repromptFilter s ≠ [] := by
  unfold repromptFilter
  simp [List.map_eq_nil_iff, jsSplitComma_ne_nil]

/-- Characters of an appended string. -/
theorem data_append (a b : String) : (a ++ b).data = a.data ++ b.data := by
  obtain ⟨la⟩ := a; obtain ⟨lb⟩ := b; rfl

/-- The failure spinner message and the catch-handler message never coincide,
whatever the webhook id and the error text. -/
theorem failedDeleteMsg_ne_deleteErrorMsg (webhookID e : String) :
    failedDeleteMsg webhookID ≠ deleteErrorMsg e := by
  intro h
  have h2 := congrArg String.data h
  rw [failedDeleteMsg, deleteErrorMsg, data_append, data_append] at h2
  have hF : ("Failed to delete webhook ").data =
      'F' :: ("ailed to delete webhook ").data := rfl
  have hE : ("Error deleting webhook: ").data =
      'E' :: ("rror deleting webhook: ").data := rfl
  rw [hF, hE, List.cons_append, List.cons_append] at h2
  have h3 : ('F' : Char) = 'E' := by injection h2
  exact absurd h3 (by decide)

/-- The addresses accumulated by the interactive collection block are the
prefilled ones followed by the collection contribution. -/
theorem interactiveCollectionStep_addresses (p : List String) (s : IScript) :
    (interactiveCollectionStep p s).2.1 = p ++ collectionContribution p s := by
  simp only [interactiveCollectionStep, collectionContribution]
  split
  · cases s.collectionFetch with
    | failure m => simp
    | ok nfts =>
      by_cases h0 : nfts.length = 0
      · simp [h0]
      · by_cases hcf : s.confirmCollection <;> simp [h0, hcf]
  · simp

/-- Events of the interactive collection block never include a create call. -/
theorem interactiveCollectionStep_no_create (p : List String) (s : IScript)
    (d : Draft) : Event.createWebhook d ∉ (interactiveCollectionStep p s).1 := by
  simp only [interactiveCollectionStep]
  split
  · cases s.collectionFetch with
    | failure m => simp
    | ok nfts =>
      by_cases h0 : nfts.length = 0
      · simp [h0]
      · by_cases hcf : s.confirmCollection <;> simp [h0, hcf]
  · simp

/-- The final address list of the interactive flow: the three-stage
concatenation, replaced by the re-prompt answer only when it is empty. -/
theorem promptForWebhookData_accountAddresses (p : List String) (s : IScript) :
    (promptForWebhookData p s).1.accountAddresses =
      (if p ++ collectionContribution p s ++ addressInputFilter s.manualAddresses
          = []
       then repromptFilter s.repromptAnswer
       else p ++ collectionContribution p s ++
         addressInputFilter s.manualAddresses) := by
  unfold promptForWebhookData
  simp only [interactiveCollectionStep_addresses]
  by_cases hm : addressInputFilter s.manualAddresses = []
  · simp [hm, List.length_eq_zero]
  · have hlen : 0 < (addressInputFilter s.manualAddresses).length :=
      List.length_pos.mpr hm
    simp [hm, hlen, List.length_eq_zero, List.append_assoc]

/-- Events of the interactive flow: the collection-block events followed by
the re-prompt exactly when the accumulated list is empty. -/
theorem promptForWebhookData_events (p : List String) (s : IScript) :
    (promptForWebhookData p s).2 =
      (interactiveCollectionStep p s).1 ++
        (if p ++ collectionContribution p s ++
            addressInputFilter s.manualAddresses = []
         then [Event.repromptAddresses] else []) := by
  unfold promptForWebhookData
  simp only [interactiveCollectionStep_addresses]
  by_cases hm : addressInputFilter s.manualAddresses = []
  · simp [hm, List.length_eq_zero]
  · have hlen : 0 < (addressInputFilter s.manualAddresses).length :=
      List.length_pos.mpr hm
    simp [hm, hlen, List.length_eq_zero, List.append_assoc]

/-- The interactive draft, with every field but the address list spelled
out. -/
theorem promptForWebhookData_draft (p : List String) (s : IScript) :
    (promptForWebhookData p s).1 =
      { webhookURL := s.webhookURL
        webhookType := s.webhookType
        authHeader := if s.authHeader = "" then none else some s.authHeader
        txnStatus := some s.txnStatus
        transactionTypes := s.transactionTypes
        accountAddresses := (promptForWebhookData p s).1.accountAddresses } :=
  rfl

/-- The action-level collection block never emits a create call. -/
theorem processCollection_no_create (opts : CreateOptions) (env : CreateEnv)
    (d : Draft) : Event.createWebhook d ∉ (processCollection opts env).1 := by
  unfold processCollection
  cases opts.collection with
  | none => simp
  | some c =>
    by_cases hc : c = ""
    · simp [hc]
    · simp only [hc]
      cases env.collectionFetch with
      | failure m => simp
      | ok nfts =>
        by_cases h0 : nfts.length = 0
        · simp [h0]
        · by_cases hcf : env.confirmCollection <;> simp [h0, hcf]

/-! Claim theorems. -/

/-- Claim C3: the collection-asset lookup paginates with fixed limit 1000
starting at page 1, requesting page N+1 exactly when page N returned exactly
1000 items and stopping on a short, empty or missing page; three pages of
sizes 1000, 1000, 10 yield exactly the requests 1, 2, 3 and 2010 addresses
in page order, and a 0-item first page causes exactly one request. -/
theorem collection_pagination_behavior :
    (∀ (p1 p2 p3 : List Asset) (rest : List (Option (List Asset))),
      p1.length = 1000 → p2.length = 1000 → p3.length = 10 →
      getNftAddressesFromCollection (some p1 :: some p2 :: some p3 :: rest) =
        ((p1 ++ p2 ++ p3).map Asset.id, [1, 2, 3]) ∧
      (getNftAddressesFromCollection
          (some p1 :: some p2 :: some p3 :: rest)).1.length = 2010)
    ∧ (∀ (z : List Asset) (rest : List (Option (List Asset))),
        z.length = 0 →
        getNftAddressesFromCollection (some z :: rest) = ([], [1]))
    ∧ (∀ (page : Nat) (items : List Asset) (rest : List (Option (List Asset))),
        items.length = 1000 →
        fetchCollectionPages page (some items :: rest) =
          (items.map Asset.id ++ (fetchCollectionPages (page + 1) rest).1,
           page :: (fetchCollectionPages (page + 1) rest).2))
    ∧ (∀ (page : Nat) (items : List Asset) (rest : List (Option (List Asset))),
        0 < items.length → items.length < 1000 →
        fetchCollectionPages page (some items :: rest) =
          (items.map Asset.id, [page])) := by
  have hcont : ∀ (page : Nat) (items : List Asset)
      (rest : List (Option (List Asset))), items.length = 1000 →
      fetchCollectionPages page (some items :: rest) =
        (items.map Asset.id ++ (fetchCollectionPages (page + 1) rest).1,
         page :: (fetchCollectionPages (page + 1) rest).2) := by
    intro page items rest h
    simp [fetchCollectionPages, h]
  have hstop : ∀ (page : Nat) (items : List Asset)
      (rest : List (Option (List Asset))), 0 < items.length →
      items.length < 1000 →
      fetchCollectionPages page (some items :: rest) =
        (items.map Asset.id, [page]) := by
    intro page items rest h0 h1
    simp [fetchCollectionPages, Nat.pos_iff_ne_zero.mp h0, h1]
  refine ⟨?_, ?_, hcont, hstop⟩
  · intro p1 p2 p3 rest h1 h2 h3
    have e1 := hcont 1 p1 (some p2 :: some p3 :: rest) h1
    have e2 := hcont 2 p2 (some p3 :: rest) h2
    have e3 := hstop 3 p3 rest (by omega) (by omega)
    constructor
    · rw [getNftAddressesFromCollection, e1, e2, e3]
      simp [List.map_append]
    · rw [getNftAddressesFromCollection, e1, e2, e3]
      simp [h1, h2, h3]
  · intro z rest h
    simp [getNftAddressesFromCollection, fetchCollectionPages, h]

/-- Witness for C3 on concrete pages of 1000, 1000 and 10 assets, and on a
0-asset first page. -/
theorem collection_pagination_behavior_witness :
    (getNftAddressesFromCollection
        [some (List.replicate 1000 (Asset.mk "a")),
         some (List.replicate 1000 (Asset.mk "b")),
         some (List.replicate 10 (Asset.mk "c"))]).1.length = 2010 ∧
    (getNftAddressesFromCollection
        [some (List.replicate 1000 (Asset.mk "a")),
         some (List.replicate 1000 (Asset.mk "b")),
         some (List.replicate 10 (Asset.mk "c"))]).2 = [1, 2, 3] ∧
    getNftAddressesFromCollection [some ([] : List Asset)] = ([], [1]) := by
  have h := collection_pagination_behavior.1
    (List.replicate 1000 (Asset.mk "a")) (List.replicate 1000 (Asset.mk "b"))
    (List.replicate 10 (Asset.mk "c")) []
    (List.length_replicate 1000 _) (List.length_replicate 1000 _)
    (List.length_replicate 10 _)
  exact ⟨h.2, congrArg Prod.snd h.1,
    collection_pagination_behavior.2.1 [] [] rfl⟩

/-- Claim C1 (code bug): in the interactive flow the skip choice does NOT
map to an absent status filter: the draft carries the raw menu sentinel
string, because the return statement uses the prompt answer instead of the
locally computed `txnStatus` (which would indeed be absent, third conjunct).
A non-skip choice is carried as the chosen value (fourth conjunct). -/
theorem skip_status_answer_reaches_draft :
    (promptForWebhookData [] skipScript).1.txnStatus = some skipStatusChoice ∧
    (promptForWebhookData [] skipScript).1.txnStatus ≠ none ∧
    computedTxnStatus skipScript = none ∧
    (promptForWebhookData [] baseScript).1.txnStatus = some "all" := by
  decide

/-- Claim C10: an interactive address input consisting only of commas passes
the at-least-one-address validator, turns into empty-string address tokens,
and those tokens are merged into the submitted draft; mixed input keeps its
empty tokens too. -/
theorem comma_only_address_input_accepted :
    addressInputValidate true "," = true ∧
    (promptForWebhookData [] commaOnlyScript).1.accountAddresses = ["", ""] ∧
    Event.repromptAddresses ∉ (promptForWebhookData [] commaOnlyScript).2 ∧
    (promptForWebhookData [] mixedEmptyScript).1.accountAddresses =
      ["a", "", "b"] := by
  decide

/-- Claim C2 (counterexample): a non-interactive invocation with a collection
address but no url performs the collection-resolution network call first and
only then fails URL presence validation, so presence validation does not
precede collection resolution. -/
theorem collection_fetch_before_url_validation_cex :
    createAction collectionOnlyOpts emptyFetchEnv =
      [Event.fetchCollection "Col111", Event.errorExit urlRequiredMsg] ∧
    (createAction collectionOnlyOpts emptyFetchEnv).head? =
      some (Event.fetchCollection "Col111") ∧
    (createAction collectionOnlyOpts emptyFetchEnv).head? ≠
      some (Event.errorExit urlRequiredMsg) := by
  decide

/-- Claim C2 (amended): in every non-interactive invocation with a truthy
collection address, the collection-resolution call is the very first
external event — it precedes the URL/kind/types presence validation and the
address-list validation, not the other way around. -/
theorem collection_fetch_is_first_event (opts : CreateOptions)
    (env : CreateEnv) (c : String) (hmode : opts.interactive = false)
    (hcol : opts.collection = some c) (hc : c ≠ "") :
    (createAction opts env).head? = some (Event.fetchCollection c) := by
  obtain ⟨rest, hrest⟩ : ∃ rest,
      (processCollection opts env).1 = Event.fetchCollection c :: rest := by
    unfold processCollection
    rw [hcol]
    simp only [hc, if_neg, ite_false, reduceIte]
    cases env.collectionFetch with
    | failure m => exact ⟨[], rfl⟩
    | ok nfts =>
      by_cases h0 : nfts.length = 0
      · exact ⟨[], by simp [h0]⟩
      · by_cases hcf : env.confirmCollection
        · exact ⟨[Event.confirmCollectionPrompt nfts.length],
            by simp [h0, hcf]⟩
        · exact ⟨[Event.confirmCollectionPrompt nfts.length],
            by simp [h0, hcf]⟩
  have hsplit : createAction opts env =
      (processCollection opts env).1 ++
        nonInteractiveTail opts (processCollection opts env).2 := by
    simp [createAction, hmode]
  rw [hsplit, hrest]
  rfl

/-- Witness for the amended C2 at a concrete invocation. -/
theorem collection_fetch_is_first_event_witness :
    (createAction collectionOnlyOpts emptyFetchEnv).head? =
      some (Event.fetchCollection "Col111") :=
  collection_fetch_is_first_event collectionOnlyOpts emptyFetchEnv "Col111"
    rfl rfl (by decide)

/-- Claim C4 (counterexample): with prefilled addresses `[A]`, a user intent
of confirmed collection `[B, C]` and manual input `D,E` does NOT yield
`[A, B, C, D, E]`: the interactive collection stage is skipped whenever any
address is prefilled, so the result is `[A, D, E]`. -/
theorem prefilled_excludes_collection_stage_cex :
    (promptForWebhookData ["A"] collectScript).1.accountAddresses =
      ["A", "D", "E"] ∧
    (["A", "D", "E"] : List String) ≠ ["A", "B", "C", "D", "E"] := by
  decide

/-- Claim C4 (amended): the final interactive address sequence is exactly the
concatenation prefilled ++ collection contribution ++ manual tokens (with
duplicates preserved, and falling back to the re-prompt answer only when that
concatenation is empty); however the collection stage contributes nothing
whenever any address was prefilled, so the claimed example is unreachable. In
the non-interactive branch the confirmed collection addresses come first and
the command-line additions after them. -/
theorem address_merge_concatenation_amended :
    (∀ (prefilled : List String) (s : IScript),
      (promptForWebhookData prefilled s).1.accountAddresses =
        (if prefilled ++ collectionContribution prefilled s ++
            addressInputFilter s.manualAddresses = []
         then repromptFilter s.repromptAnswer
         else prefilled ++ collectionContribution prefilled s ++
           addressInputFilter s.manualAddresses))
    ∧ (∀ (prefilled : List String) (s : IScript),
        prefilled ≠ [] → collectionContribution prefilled s = [])
    ∧ (∀ (opts : CreateOptions) (collected : List String),
        collected ≠ [] → truthy opts.addresses = true →
        mergedAddresses opts collected =
          collected ++ parseAddresses (opts.addresses.getD "")) := by
  refine ⟨promptForWebhookData_accountAddresses, ?_, ?_⟩
  · intro prefilled s hp
    have hlen : ¬ prefilled.length = 0 := by
      simpa [List.length_eq_zero] using hp
    simp [collectionContribution, interactiveUseCollection, hlen]
  · intro opts collected hne htruthy
    have hlen : ¬ collected.length = 0 := by
      simpa [List.length_eq_zero] using hne
    simp [mergedAddresses, hlen, htruthy]

/-- Witness for the amended C4: with nothing prefilled the confirmed
collection `[B, C]` comes first and the manual `D,E` after it, and with
`[A]` prefilled the collection stage contributes nothing. -/
theorem address_merge_concatenation_amended_witness :
    (promptForWebhookData [] collectScript).1.accountAddresses =
      ["B", "C", "D", "E"] ∧
    collectionContribution ["A"] collectScript = [] := by
  constructor
  · exact (address_merge_concatenation_amended.1 [] collectScript).trans
      (by decide)
  · exact address_merge_concatenation_amended.2.1 ["A"] collectScript
      (by decide)

/-- Claim C5: a non-interactive creation with url, type and types present
(and the other validations satisfiable) reaches the single create call iff
every comma-separated types token, trimmed and uppercased, belongs to
`TRANSACTION_TYPES`; one invalid token means the trace has no create call at
all. -/
theorem transaction_types_gate_create_iff (opts : CreateOptions)
    (env : CreateEnv) (hmode : opts.interactive = false)
    (hurl : truthy opts.url = true) (htype : truthy opts.type = true)
    (htypes : truthy opts.types = true)
    (hwt : opts.type.getD "" ∈ WEBHOOK_TYPES)
    (hst : truthy opts.status = true →
      opts.status.getD "" ∈ TXN_STATUS_OPTIONS)
    (haddr : (processCollection opts env).2 ≠ [] ∨
      truthy opts.addresses = true) :
    (∃ d, Event.createWebhook d ∈ createAction opts env) ↔
      ∀ t ∈ parseTransactionTypes (opts.types.getD ""),
        t ∈ TRANSACTION_TYPES := by
  have hsplit : createAction opts env =
      (processCollection opts env).1 ++
        nonInteractiveTail opts (processCollection opts env).2 := by
    simp [createAction, hmode]
  constructor
  · rintro ⟨d, hd⟩
    rw [hsplit, List.mem_append] at hd
    rcases hd with hd | hd
    · exact absurd hd (processCollection_no_create opts env d)
    · cases hfind : (parseTransactionTypes (opts.types.getD "")).find?
          (fun t => !(decide (t ∈ TRANSACTION_TYPES))) with
      | some u =>
        rw [nonInteractiveTail, hurl, htype, htypes] at hd
        simp only [hfind] at hd
        simp at hd
      | none =>
        intro t ht
        have := List.find?_eq_none.mp hfind t ht
        simpa using this
  · intro hvalid
    have hfind : (parseTransactionTypes (opts.types.getD "")).find?
        (fun t => !(decide (t ∈ TRANSACTION_TYPES))) = none := by
      apply List.find?_eq_none.mpr
      intro x hx
      simp [hvalid x hx]
    have haddr2 : ¬((processCollection opts env).2 = [] ∧
        truthy opts.addresses = false) := by
      rcases haddr with h1 | h1
      · intro hcon; exact h1 hcon.1
      · intro hcon; rw [h1] at hcon; exact absurd hcon.2 (by simp)
    have hstatus : ¬(truthy opts.status = true ∧
        (opts.status.getD "") ∉ TXN_STATUS_OPTIONS) :=
      fun hcon => hcon.2 (hst hcon.1)
    refine ⟨nonInteractiveDraft opts (processCollection opts env).2, ?_⟩
    rw [hsplit]
    apply List.mem_append_right
    rw [nonInteractiveTail, hurl, htype, htypes]
    simp only [hfind]
    simp [haddr2, hwt, hstatus]

/-- Witness for C5: `NFT_SALE,BOGUS` creates nothing, while
`NFT_SALE,SOL_TRANSFER` reaches the create call. -/
theorem transaction_types_gate_create_iff_witness :
    (¬ ∃ d, Event.createWebhook d ∈
      createAction bogusTypesOpts emptyFetchEnv) ∧
    (∃ d, Event.createWebhook d ∈
      createAction validTypesOpts emptyFetchEnv) := by
  constructor
  · intro hex
    have h := (transaction_types_gate_create_iff bogusTypesOpts emptyFetchEnv
      rfl (by decide) (by decide) (by decide) (by decide)
      (fun hcon => absurd hcon (by decide)) (Or.inr (by decide))).mp hex
      "BOGUS" (by decide)
    exact absurd h (by decide)
  · exact (transaction_types_gate_create_iff validTypesOpts emptyFetchEnv
      rfl (by decide) (by decide) (by decide) (by decide)
      (fun hcon => absurd hcon (by decide)) (Or.inr (by decide))).mpr
      (by decide)

/-- Claim C6: when any of url, type or types is absent in a non-interactive
invocation, the trace never contains a create call — validation exits before
it. -/
theorem absent_required_options_block_create (opts : CreateOptions)
    (env : CreateEnv) (d : Draft) (hmode : opts.interactive = false)
    (habsent : opts.url = none ∨ opts.type = none ∨ opts.types = none) :
    Event.createWebhook d ∉ createAction opts env := by
  have hsplit : createAction opts env =
      (processCollection opts env).1 ++
        nonInteractiveTail opts (processCollection opts env).2 := by
    simp [createAction, hmode]
  rw [hsplit]
  intro hmem
  rcases List.mem_append.mp hmem with h | h
  · exact processCollection_no_create opts env d h
  · unfold nonInteractiveTail at h
    split at h
    · simp at h
    · split at h
      · simp at h
      · split at h
        · simp at h
        · rename_i hu ht htys
          rcases habsent with ha | ha | ha
          · exact hu (by rw [ha]; rfl)
          · exact ht (by rw [ha]; rfl)
          · exact htys (by rw [ha]; rfl)

/-- Witness for C6 at a concrete invocation missing the url. -/
theorem absent_required_options_block_create_witness :
    Event.createWebhook (nonInteractiveDraft missingUrlOpts []) ∉
      createAction missingUrlOpts emptyFetchEnv :=
  absent_required_options_block_create missingUrlOpts emptyFetchEnv _
    rfl (Or.inl rfl)

/-- Claim C7: the interactive flow never submits an empty address list; when
the three stages accumulate nothing it re-prompts (blocking until the
accepted answer is non-blank) and uses that answer. -/
theorem empty_accumulation_reprompts_nonempty (prefilled : List String)
    (s : IScript) (hvalid : repromptValidate s.repromptAnswer = true) :
    (promptForWebhookData prefilled s).1.accountAddresses ≠ [] ∧
    (prefilled ++ collectionContribution prefilled s ++
        addressInputFilter s.manualAddresses = [] →
      Event.repromptAddresses ∈ (promptForWebhookData prefilled s).2) := by
  constructor
  · rw [promptForWebhookData_accountAddresses]
    split
    · exact repromptFilter_ne_nil s.repromptAnswer
    · assumption
  · intro hempty
    rw [promptForWebhookData_events, hempty]
    simp

/-- Witness for C7: an empty first address answer forces the re-prompt and
the draft carries the re-prompt tokens. -/
theorem empty_accumulation_reprompts_nonempty_witness :
    (promptForWebhookData [] emptyThenRepromptScript).1.accountAddresses
      ≠ [] ∧
    Event.repromptAddresses ∈
      (promptForWebhookData [] emptyThenRepromptScript).2 := by
  have h := empty_accumulation_reprompts_nonempty [] emptyThenRepromptScript
    (by decide)
  exact ⟨h.1, h.2 (by decide)⟩

/-- Claim C8: a `deleteWebhook` response of success `false` is reported as a
failure spinner message, not as the thrown-error path (no catch handler, no
exit-1 outcome), and its message always differs from the transport-error
message. -/
theorem delete_false_success_reported_distinct (webhookID : String)
    (force : Bool) (env : DeleteEnv)
    (hgate : force = true ∨ env.confirmAnswer = true)
    (hres : env.deleteResult = .ok false) :
    deleteAction webhookID force env =
      DeleteOutcome.reportedFailure (failedDeleteMsg webhookID) ∧
    (∀ m, deleteAction webhookID force env ≠ DeleteOutcome.errorExit m) ∧
    (∀ e, failedDeleteMsg webhookID ≠ deleteErrorMsg e) ∧
    (∀ e (env2 : DeleteEnv), env2.deleteResult = .failure e →
      deleteAction webhookID true env2 =
        DeleteOutcome.errorExit (deleteErrorMsg e)) := by
  have hrun : deleteAction webhookID force env =
      DeleteOutcome.reportedFailure (failedDeleteMsg webhookID) := by
    unfold deleteAction
    rcases hgate with hg | hg <;> simp [hg, hres]
  refine ⟨hrun, ?_, failedDeleteMsg_ne_deleteErrorMsg webhookID, ?_⟩
  · intro m
    rw [hrun]
    simp
  · intro e env2 h2
    unfold deleteAction
    simp [h2]

/-- Witness for C8 at a concrete deletion. -/
theorem delete_false_success_reported_distinct_witness :
    deleteAction "wh1" true ⟨false, .ok false⟩ =
      DeleteOutcome.reportedFailure (failedDeleteMsg "wh1") ∧
    failedDeleteMsg "wh1" ≠
      deleteErrorMsg "No response received from API" := by
  have h := delete_false_success_reported_distinct "wh1" true
    ⟨false, .ok false⟩ (Or.inl rfl) rfl
  exact ⟨h.1, h.2.2.1 "No response received from API"⟩

/-- Claim C9: declining the collection confirmation leaves the draft exactly
as if the collection step had not run at all (interactive), and leaves the
action-level address accumulator empty (non-interactive). -/
theorem declined_collection_preserves_draft :
    (∀ (prefilled : List String) (s : IScript),
      s.confirmCollection = false →
      (promptForWebhookData prefilled s).1 =
        (promptForWebhookData prefilled
          { s with useCollection := false }).1)
    ∧ (∀ (opts : CreateOptions) (env : CreateEnv),
        env.confirmCollection = false → (processCollection opts env).2 = []) := by
  constructor
  · intro p s hc
    have h1 : collectionContribution p s = [] := by
      unfold collectionContribution
      split
      · cases s.collectionFetch with
        | failure m => rfl
        | ok nfts => by_cases h0 : nfts.length = 0 <;> simp [h0, hc]
      · rfl
    have h2 : collectionContribution p { s with useCollection := false } = [] := by
      simp [collectionContribution, interactiveUseCollection]
    have haddr : (promptForWebhookData p s).1.accountAddresses =
        (promptForWebhookData p { s with useCollection := false
          }).1.accountAddresses := by
      rw [promptForWebhookData_accountAddresses,
        promptForWebhookData_accountAddresses, h1, h2]
    rw [promptForWebhookData_draft p s,
      promptForWebhookData_draft p { s with useCollection := false }, haddr]
  · intro opts env hc
    unfold processCollection
    cases opts.collection with
    | none => rfl
    | some c =>
      by_cases hcc : c = ""
      · simp [hcc]
      · simp only [hcc]
        cases env.collectionFetch with
        | failure m => simp
        | ok nfts =>
          by_cases h0 : nfts.length = 0 <;> simp [h0, hc]

/-- Witness for C9 at a concrete declined confirmation in both modes. -/
theorem declined_collection_preserves_draft_witness :
    (promptForWebhookData [] declineScript).1 =
      (promptForWebhookData [] { declineScript with useCollection := false }).1 ∧
    (processCollection collectionOnlyOpts declineEnv).2 = [] :=
  ⟨declined_collection_preserves_draft.1 [] declineScript rfl,
   declined_collection_preserves_draft.2 collectionOnlyOpts declineEnv rfl⟩

end HeliusCli
